import Mathlib

/-!
Verification of the reducer, mutation-handler and routing examples of the
repository. Each TypeScript function the claims refer to is embedded as a
Lean definition; the JavaScript value `undefined` is modelled by `Option`
(`none` = `undefined`), JS object records by structures, and an action whose
`type` tag is none of the recognized tags by an `other` constructor carrying
the runtime tag string.
-/

namespace Spec2Proof

/-- The `Todo` record of the query/mutation examples
(`useTodos` / `todoService`): fields `id`, `title`, `userId`, `completed`. -/
structure Todo where
  id : Int
  title : String
  userId : Int
  completed : Bool
deriving DecidableEq, Repr

/-- The `Task` record of the task-list examples. -/
structure Task where
  id : Int
  title : String
deriving DecidableEq, Repr

/-- Runtime action dispatched to a task reducer: the two recognized variants
`ADD` (payload `task`) and `Delete` (payload `taskId`), plus `other` for any
runtime action whose `type` tag is unrecognized. -/
inductive TaskAction where
  | add (task : Task)
  | delete (taskId : Int)
  | other (tag : String)
deriving DecidableEq, Repr

namespace reducers

/-- `taskReducer` from `src/state-management/reducers/taskReducer.ts`.
Its `switch` has no `default:` label — the `return tasks` line sits after the
`return` of the `"Delete"` case and is unreachable — so on an unrecognized
action the function falls through the `switch` and returns `undefined`,
modelled as `none`. -/
def taskReducer (tasks : List Task) (action : TaskAction) : Option (List Task) :=
  match action with
  | .add task => some (tasks ++ [task])
  | .delete taskId => some (tasks.filter (fun task => task.id != taskId))
  | .other _ => none

end reducers

namespace TasksProvider

/-- `taskReducer` from `src/state-management/task/TasksProvider.tsx`: same two
cases, but with a proper `default:` branch returning the previous state. -/
def taskReducer (tasks : List Task) (action : TaskAction) : List Task :=
  match action with
  | .add task => tasks ++ [task]
  | .delete taskId => tasks.filter (fun task => task.id != taskId)
  | .other _ => tasks

end TasksProvider

/-- Runtime action dispatched to the auth reducer: `LOGIN` (payload
`userName`), `LOGOUT`, or an unrecognized tag. -/
inductive AuthAction where
  | login (userName : String)
  | logout
  | other (tag : String)
deriving DecidableEq, Repr

/-- `authReducer` from `src/state-management/reducers/authReducer.ts` (the
copy in `auth/AuthProvider.tsx` is textually identical): the state is the
logged-in user name, `""` when logged out; the `switch` has a `default:`
branch returning the previous state. -/
def authReducer (state : String) (action : AuthAction) : String :=
  match action with
  | .login userName => userName
  | .logout => ""
  | .other _ => state

/-- The query cache entry under the `["todos"]` key: `none` models a cache
where `getQueryData` returns `undefined`. -/
abbrev TodoCache := Option (List Todo)

/-- The mutation context built by `onMutate` in `useAddTodo.ts`:
`{ previousTodos }`, where the field may be `undefined`. -/
structure AddTodoContext where
  previousTodos : Option (List Todo)
deriving DecidableEq, Repr

/-- `onMutate` of `useAddTodo` (`src/hooks/useAddTodo.ts`): snapshots the
cache into `previousTodos`, then writes `[newTodo, ...(todos || [])]` into
the cache; returns the new cache and the context. -/
def onMutate (cache : TodoCache) (newTodo : Todo) : TodoCache × AddTodoContext :=
  let previousTodos := cache
  (some (newTodo :: cache.getD []), ⟨previousTodos⟩)

/-- `onSuccess` of `useAddTodo`: rewrites the cache with
`todos?.map(todo => (todo === newTodo ? savedTodo : todo))`. -/
def onSuccess (cache : TodoCache) (savedTodo newTodo : Todo) : TodoCache :=
  cache.map (fun todos => todos.map (fun todo => if todo = newTodo then savedTodo else todo))

/-- `onError` of `useAddTodo`: `if (!context) return;` then writes
`context.previousTodos` back into the cache. -/
def onError (cache : TodoCache) (context : Option AddTodoContext) : TodoCache :=
  match context with
  | none => cache
  | some ctx => ctx.previousTodos

/-- The `Post` record of the infinite-query example. -/
structure Post where
  id : Int
  title : String
  body : String
  userId : Int
deriving DecidableEq, Repr

/-- The `PostQuery` parameter of `usePosts`: only `pageSize` remains after the
tutorial removes `page`. -/
structure PostQuery where
  pageSize : Int
deriving DecidableEq, Repr

/-- The request parameters `( _start, _limit )` computed by the `queryFn` of
`usePosts` for a page parameter: `_start = (pageParam - 1) * query.pageSize`,
`_limit = query.pageSize`. -/
def postsQueryParams (query : PostQuery) (pageParam : Int) : Int × Int :=
  ((pageParam - 1) * query.pageSize, query.pageSize)

/-- `getNextPageParam` of `usePosts`:
`lastPage.length > 0 ? allPages.length + 1 : undefined`. -/
def getNextPageParam (lastPage : List Post) (allPages : List (List Post)) : Option Nat :=
  if lastPage.length > 0 then some (allPages.length + 1) else none

/-- A JavaScript `Error` value as the examples use it: only `message` is read. -/
structure JsError where
  message : String
deriving DecidableEq, Repr

/-- The error-fallback region of `TodoForm`
(`{addTodo.error && (<div className="alert alert-danger">{addTodo.error?.message}</div>)}`):
returns the rendered alert text, or `none` when no fallback is rendered. -/
def todoFormErrorAlert (error : Option JsError) : Option String :=
  match error with
  | some e => some e.message
  | none => none

/-- What `PrivateRoutes` renders: a `<Navigate to=.../>` redirect or the
nested-route `<Outlet/>`. -/
inductive RouteElement where
  | navigate (dest : String)
  | outlet
deriving DecidableEq, Repr

/-- `PrivateRoutes` from `src/routing/PrivateRoutes.tsx`:
`if (!user) return <Navigate to={"/login"} />; return <Outlet />;` — for a
string-valued user, `!user` is true exactly on the empty string. -/
def PrivateRoutes (user : String) : RouteElement :=
  if user = "" then .navigate "/login" else .outlet

/-- Claim C1: the add-todo mutation is atomic under failure. `onMutate`
records the prior cache as the snapshot, performs the optimistic head
insertion, and `onError` given that context restores the cache to exactly the
snapshot — for every prior cache contents, every submitted todo, and whatever
the cache holds when the error arrives, the cache after the failed mutation
equals the cache before the mutation began. -/
theorem addTodo_rollback (cache : TodoCache) (newTodo : Todo) (mid : TodoCache) :
    (onMutate cache newTodo).2.previousTodos = cache ∧
    (onMutate cache newTodo).1 = some (newTodo :: cache.getD []) ∧
    onError mid (some (onMutate cache newTodo).2) = cache :=
  ⟨rfl, rfl, rfl⟩

/-- Claim C2: on-success reconciliation frame. For every cached todo list
containing the submitted `newTodo`, `onSuccess` keeps the length and, at each
position, replaces the element exactly when it equals `newTodo` (by the
`savedTodo` returned from the server) and leaves every other element unchanged
in place. -/
theorem addTodo_onSuccess_frame (todos : List Todo) (savedTodo newTodo : Todo)
    (h : newTodo ∈ todos) (i : Nat) :
    ((onSuccess (some todos) savedTodo newTodo).getD []).length = todos.length ∧
    ((onSuccess (some todos) savedTodo newTodo).getD []).get? i
      = (todos.get? i).map (fun todo => if todo = newTodo then savedTodo else todo) := by
  refine ⟨?_, ?_⟩ <;> simp [onSuccess]

theorem addTodo_onSuccess_frame_witness :
    (⟨0, "new", 1, true⟩ : Todo) ∈ [(⟨0, "new", 1, true⟩ : Todo), ⟨5, "old", 2, false⟩] ∧
    (((onSuccess (some [⟨0, "new", 1, true⟩, ⟨5, "old", 2, false⟩]) ⟨101, "new", 1, true⟩
        ⟨0, "new", 1, true⟩).getD []).length
      = ([(⟨0, "new", 1, true⟩ : Todo), ⟨5, "old", 2, false⟩]).length ∧
     ((onSuccess (some [⟨0, "new", 1, true⟩, ⟨5, "old", 2, false⟩]) ⟨101, "new", 1, true⟩
        ⟨0, "new", 1, true⟩).getD []).get? 0
      = (([(⟨0, "new", 1, true⟩ : Todo), ⟨5, "old", 2, false⟩].get? 0).map
          (fun todo => if todo = ⟨0, "new", 1, true⟩ then ⟨101, "new", 1, true⟩ else todo))) :=
  ⟨by decide,
   addTodo_onSuccess_frame [⟨0, "new", 1, true⟩, ⟨5, "old", 2, false⟩] ⟨101, "new", 1, true⟩
     ⟨0, "new", 1, true⟩ (by decide) 0⟩

/-- Claim C3 (the code violates it): on an action with an unrecognized tag,
the standalone `reducers.taskReducer` falls through its `switch` (the
`return tasks` after the `"Delete"` case is unreachable) and returns
`undefined` (`none`), not the previous state — while the `TasksProvider`
task reducer and the auth reducer, which do have `default:` branches, return
the previous state unchanged as the claim says. -/
theorem taskReducer_unrecognized_behavior :
    reducers.taskReducer [⟨1, "a"⟩] (.other "RESET") = none ∧
    TasksProvider.taskReducer [⟨1, "a"⟩] (.other "RESET") = [⟨1, "a"⟩] ∧
    authReducer "mostafa" (.other "RESET") = "mostafa" :=
  ⟨rfl, rfl, rfl⟩

/-- Claim C4: paginated post fetching. For every page parameter `p ≥ 1` the
infinite post query requests `_start = (p - 1) * pageSize` and
`_limit = pageSize`; `getNextPageParam` returns `allPages.length + 1` when the
last fetched page is non-empty and `undefined` when it is empty. -/
theorem usePosts_pagination (query : PostQuery) (p : Int) (hp : 1 ≤ p)
    (lastPage : List Post) (allPages : List (List Post)) (hne : lastPage ≠ []) :
    postsQueryParams query p = ((p - 1) * query.pageSize, query.pageSize) ∧
    getNextPageParam lastPage allPages = some (allPages.length + 1) ∧
    getNextPageParam [] allPages = none := by
  refine ⟨rfl, ?_, rfl⟩
  have hlen : 0 < lastPage.length := List.length_pos.mpr hne
  simp [getNextPageParam, hlen]

theorem usePosts_pagination_witness :
    postsQueryParams ⟨10⟩ 3 = ((3 - 1) * (10 : Int), 10) ∧
    getNextPageParam [⟨1, "t", "b", 1⟩] [[⟨1, "t", "b", 1⟩]] = some ([[(⟨1, "t", "b", 1⟩ : Post)]].length + 1) ∧
    getNextPageParam [] [[⟨1, "t", "b", 1⟩]] = none :=
  usePosts_pagination ⟨10⟩ 3 (by norm_num) [⟨1, "t", "b", 1⟩] [[⟨1, "t", "b", 1⟩]] (by simp)

/-- Claim C5: the auth reducer is state-independent on recognized actions —
from every previous state it returns the user name on `LOGIN` and `""` on
`LOGOUT`, so two runs from different previous states agree. -/
theorem authReducer_state_independent (s s' u : String) :
    authReducer s (.login u) = u ∧
    authReducer s .logout = "" ∧
    authReducer s (.login u) = authReducer s' (.login u) ∧
    authReducer s .logout = authReducer s' .logout :=
  ⟨rfl, rfl, rfl, rfl⟩

/-- Claim C6: the todo form renders the fallback alert exactly when the
mutation hook's `error` field is non-null, and the rendered fallback carries
the error's `message`. -/
theorem todoForm_error_fallback (error : Option JsError) :
    ((todoFormErrorAlert error).isSome ↔ error.isSome) ∧
    todoFormErrorAlert error = Option.map JsError.message error := by
  cases error <;> simp [todoFormErrorAlert]

/-- Claim C7: a `Todo` is determined by exactly the fields `id`, `title`,
`userId`, `completed`, and a `Task` by exactly `id` and `title`: equality of
records is equivalent to equality of those fields. -/
theorem todo_task_record_fields (t₁ t₂ : Todo) (s₁ s₂ : Task) :
    (t₁ = t₂ ↔ t₁.id = t₂.id ∧ t₁.title = t₂.title ∧ t₁.userId = t₂.userId ∧
      t₁.completed = t₂.completed) ∧
    (s₁ = s₂ ↔ s₁.id = s₂.id ∧ s₁.title = s₂.title) := by
  constructor
  · cases t₁; cases t₂; simp
  · cases s₁; cases s₂; simp

/-- Claim C8: the `Delete` action removes exactly the tasks whose `id` equals
the given `taskId`, the remaining tasks form a sublist of the original list
(so their original order is preserved), and deleting twice equals deleting
once; moreover the standalone reducer computes the same list on `Delete`. -/
theorem taskReducer_delete_spec (tasks : List Task) (taskId : Int) :
    (∀ t, t ∈ TasksProvider.taskReducer tasks (.delete taskId) ↔
      (t ∈ tasks ∧ t.id ≠ taskId)) ∧
    (TasksProvider.taskReducer tasks (.delete taskId)).Sublist tasks ∧
    TasksProvider.taskReducer (TasksProvider.taskReducer tasks (.delete taskId)) (.delete taskId)
      = TasksProvider.taskReducer tasks (.delete taskId) ∧
    reducers.taskReducer tasks (.delete taskId)
      = some (TasksProvider.taskReducer tasks (.delete taskId)) := by
  refine ⟨?_, ?_, ?_, rfl⟩
  · intro t
    simp [TasksProvider.taskReducer, List.mem_filter]
  · exact List.filter_sublist tasks
  · simp [TasksProvider.taskReducer, List.filter_filter]

/-- Claim C9 fails on the code: at the concrete input `tasks = []`,
`action = { type: "RESET" }`, the standalone reducer returns `undefined`
(`none`) while the `TasksProvider` reducer returns the previous state, so the
two task reducers do not compute the same function on every action. -/
theorem taskReducers_equal_counterexample :
    reducers.taskReducer [] (.other "RESET")
      ≠ some (TasksProvider.taskReducer [] (.other "RESET")) := by
  decide

/-- Claim C9 amended: the two task reducers agree on every recognized action
(`ADD` and `Delete`); on an action with an unrecognized tag the standalone
reducer returns `undefined` while the `TasksProvider` reducer returns the
previous task list unchanged. -/
theorem taskReducers_agree_amended (tasks : List Task) (task : Task) (taskId : Int)
    (tag : String) :
    reducers.taskReducer tasks (.add task) = some (TasksProvider.taskReducer tasks (.add task)) ∧
    reducers.taskReducer tasks (.delete taskId)
      = some (TasksProvider.taskReducer tasks (.delete taskId)) ∧
    reducers.taskReducer tasks (.other tag) = none ∧
    TasksProvider.taskReducer tasks (.other tag) = tasks :=
  ⟨rfl, rfl, rfl, rfl⟩

/-- Claim C10: `PrivateRoutes` renders the redirect to `"/login"` exactly when
the auth user is falsy — the empty string — and renders the nested-route
outlet for every non-empty user. -/
theorem privateRoutes_redirect_iff (user : String) :
    (PrivateRoutes user = .navigate "/login" ↔ user = "") ∧
    (PrivateRoutes user = .outlet ↔ user ≠ "") := by
  by_cases h : user = "" <;> simp [PrivateRoutes, h]

end Spec2Proof
